import Mathlib

/-!
# Sidechain certificate proof verifier (`src/sc/proofverifier.cpp`)

A shallow embedding of the namespace `libzendoomc` of `proofverifier.cpp`:

* the verification-key store `SaveScVkToFile` / `LoadScVkFromFile`, over a model of the
  `std::ofstream` / `std::ifstream` operations the two functions use;
* the session `CScWCertProofVerificationParameters` with `createParameters`,
  `verifierCall` and `freeParameters`, over an external engine whose calls are recorded
  in a trace.

Pointers to engine objects are `Option Nat`: `none` is `nullptr`, `some a` is the address
`a`.  A block-hash pointer is modelled by the hash it points to.  Amounts, qualities and
heights are integers; the source copies them without arithmetic, except `targetHeight`.
`__LINE__` is the number of the source line that carries the token.  The lock
`cs_ScParamsIO` has no effect on a single thread and is not modelled.
-/

namespace libzendoomc

/-! ## Data -/

/-- One `unsigned char`. -/
abbrev Byte := Fin 256

/-- The type `ScVk`: a `std::vector<unsigned char>`. -/
abbrev ScVk := List Byte

/-- A `uint256`, by its bytes. -/
abbrev uint256 := List Byte

/-- A pointer to an engine object (`field_t*`, `sc_proof_t*`, `sc_vk_t*`). -/
abbrev Ptr := Option Nat

/-- A `uint160`: exactly twenty bytes. -/
abbrev uint160 := { l : List Byte // l.length = 20 }

/-- The struct `backward_transfer_t` of the engine: `pk_dest[20]` and `amount`. -/
structure backward_transfer_t where
  pk_dest : List Byte
  amount : Int
deriving DecidableEq, Repr

/-- A certificate output `CTxOut`: the flag `createParameters` tests, and the value and the
script from which the converting constructor builds a `CBackwardTransferOut`. -/
structure CTxOut where
  nValue : Int
  scriptPubKey : List Byte
  isFromBackwardTransfer : Bool
deriving DecidableEq, Repr

/-- The class `CBackwardTransferOut`: the fields `createParameters` reads. -/
structure CBackwardTransferOut where
  nValue : Int
  pubKeyHash : uint160

/-- The certificate `scCert`. -/
structure CScCertificate where
  epochNumber : Int
  quality : Int
  scProof : List Byte
  endEpochBlockHash : uint256
  vout : List CTxOut

/-- The sidechain record `scInfo`. -/
structure CSidechain where
  constant : List Byte
  wCertVkPath : String
  StartHeightForEpoch : Int → Int

/-- An argument handed to a `printf`-style format. -/
inductive FormatArg where
  | str (s : String)
  | num (n : Nat)
deriving DecidableEq, Repr

/-- The arguments of one `verify_sc_proof` call, in the order of the call. -/
structure VerifyArgs where
  end_epoch_mc_b_hash : Option uint256
  prev_end_epoch_mc_b_hash : Option uint256
  bt_list : List backward_transfer_t
  bt_list_len : Nat
  quality : Int
  constant : Ptr
  proofdata : Ptr
  sc_proof : Ptr
  sc_vk : Ptr
deriving DecidableEq, Repr

/-- One call that leaves the module, with its arguments and, where it has one, its result. -/
inductive Event where
  | LogPrint (category : String) (fmt : String) (args : List FormatArg)
  | print_error (msg : String)
  | deserialize_field (bytes : List Byte) (ret : Ptr)
  | deserialize_sc_proof (bytes : List Byte) (ret : Ptr)
  | deserialize_sc_vk_from_file (path : String) (len : Nat) (ret : Ptr)
  | verify_sc_proof (args : VerifyArgs) (ret : Bool)
  | zendoo_get_last_error (category : Nat)
  | zendoo_field_free (p : Ptr)
  | zendoo_sc_proof_free (p : Ptr)
  | zendoo_sc_vk_free (p : Ptr)
  | zendoo_clear_error
deriving DecidableEq, Repr

/-- The external verification engine.  Every call may answer according to everything that
happened before it (the trace so far), so any deterministic engine is an instance. -/
structure Engine where
  zendoo_get_field_size_in_bytes : Nat
  zendoo_get_sc_proof_size : Nat
  CRYPTO_ERROR : Nat
  deserialize_field : List Event → List Byte → Ptr
  deserialize_sc_proof : List Event → List Byte → Ptr
  deserialize_sc_vk_from_file : List Event → String → Nat → Ptr
  verify_sc_proof : List Event → VerifyArgs → Bool
  zendoo_get_last_error : List Event → Nat

/-- What `createParameters` reaches outside the session besides the engine: the active
chain (`none` where `chainActive[h]` is a null block index) and the converting constructor
`CBackwardTransferOut(const CTxOut&)`, both declared outside this source file. -/
structure Context where
  engine : Engine
  chainActive : Int → Option uint256
  toBackwardTransferOut : CTxOut → CBackwardTransferOut

/-- The data members of `CScWCertProofVerificationParameters` that the three operations
write.  A block-hash pointer is modelled by the hash it views. -/
structure Session where
  end_epoch_mc_b_hash : Option uint256
  prev_end_epoch_mc_b_hash : Option uint256
  bt_list : List backward_transfer_t
  quality : Int
  constant : Ptr
  proofdata : Ptr
  sc_proof : Ptr
  sc_vk : Ptr
deriving DecidableEq, Repr

/-! ## The stream operations used by the key store

The members of `std::basic_ios`, `std::ofstream` and `std::ifstream` that the two store
functions call, following the C++ standard: a stream carries state bits and an exception
mask, and `clear` throws `std::ios_base::failure` when a bit of the mask is set. -/

/-- The bitmask `std::ios_base::iostate`. -/
structure iostate where
  eofbit : Bool
  failbit : Bool
  badbit : Bool
deriving DecidableEq, Repr

/-- The value `goodbit`: no bit set. -/
def iostate.goodbit : iostate := ⟨false, false, false⟩

/-- Bitwise or of two masks. -/
def iostate.union (a b : iostate) : iostate :=
  ⟨a.eofbit || b.eofbit, a.failbit || b.failbit, a.badbit || b.badbit⟩

/-- Whether two masks have a bit in common. -/
def iostate.meets (a b : iostate) : Bool :=
  (a.eofbit && b.eofbit) || (a.failbit && b.failbit) || (a.badbit && b.badbit)

/-- The state and the exception mask of a stream (`std::basic_ios`). -/
structure basic_ios where
  state : iostate
  exceptions : iostate
deriving DecidableEq, Repr

/-- The member `good()`. -/
def basic_ios.good (s : basic_ios) : Bool :=
  !s.state.eofbit && !s.state.failbit && !s.state.badbit

/-- The member `clear(state)`: stores the state; the first component tells whether it
throws `std::ios_base::failure`, which it does when the new state meets the mask. -/
def basic_ios.clear (s : basic_ios) (state : iostate) : Bool × basic_ios :=
  (state.meets s.exceptions, { s with state := state })

/-- The member `setstate(bits)`: `clear(rdstate() | bits)`. -/
def basic_ios.setstate (s : basic_ios) (bits : iostate) : Bool × basic_ios :=
  s.clear (s.state.union bits)

/-- The member `exceptions(mask)`: stores the mask, then `clear(rdstate())`. -/
def basic_ios.setExceptions (s : basic_ios) (mask : iostate) : Bool × basic_ios :=
  basic_ios.clear { s with exceptions := mask } s.state

/-- The files and the device under the store.  `files p` is the content of the file at
`p` (`none`: no file there).  The other fields say which device operations succeed:
opening `p` for writing, accepting the `n`-th byte written to `p`, flushing and closing
`p`, and fetching the byte at offset `n` of `p`. -/
structure FileSystem where
  files : String → Option (List Byte)
  writable : String → Bool
  putOk : String → Nat → Bool
  flushOk : String → Bool
  closeOk : String → Bool
  readOk : String → Nat → Bool

/-- The file system with the content of `path` replaced. -/
def FileSystem.store (fs : FileSystem) (path : String) (content : List Byte) : FileSystem :=
  { fs with files := fun p => if p = path then some content else fs.files p }

/-- How a store function ends: by returning a value, or with a `std::ios_base::failure`
that leaves the function. -/
inductive Outcome (α : Type) where
  | returned (a : α)
  | threw
deriving DecidableEq, Repr

/-- A `std::ofstream`. -/
structure ofstream where
  path : String
  is_open : Bool
  written : List Byte
  ios : basic_ios
deriving DecidableEq, Repr

/-- The constructor `std::ofstream fh(path, out | binary)`: opens and truncates the file;
when the open fails it sets `failbit` (the mask is still empty, so nothing is thrown). -/
def ofstream.open (fs : FileSystem) (path : String) : ofstream × FileSystem :=
  if fs.writable path then
    ({ path := path, is_open := true, written := [],
       ios := ⟨iostate.goodbit, iostate.goodbit⟩ }, fs.store path [])
  else
    ({ path := path, is_open := false, written := [],
       ios := ⟨⟨false, true, false⟩, iostate.goodbit⟩ }, fs)

/-- The insertion `fh << c` of one character: on a stream that is not good the sentry sets
`failbit`; a character the device refuses sets `badbit`.  The first component tells whether
`std::ios_base::failure` is thrown. -/
def ofstream.put (fs : FileSystem) (fh : ofstream) (c : Byte) :
    Bool × ofstream × FileSystem :=
  if !fh.ios.good then
    let r := fh.ios.setstate ⟨false, true, false⟩
    (r.1, { fh with ios := r.2 }, fs)
  else if fs.putOk fh.path fh.written.length then
    let w := fh.written ++ [c]
    (false, { fh with written := w }, fs.store fh.path w)
  else
    let r := fh.ios.setstate ⟨false, false, true⟩
    (r.1, { fh with ios := r.2 }, fs)

/-- The call `std::copy(scVk.cbegin(), scVk.cend(), std::ostream_iterator<unsigned char>(fh))`:
one insertion per element, left at the first insertion that throws. -/
def ofstream.copy (fs : FileSystem) (fh : ofstream) : List Byte → Bool × ofstream × FileSystem
  | [] => (false, fh, fs)
  | c :: cs =>
    let r := ofstream.put fs fh c
    if r.1 then r else ofstream.copy r.2.2 r.2.1 cs

/-- The member `flush()`: a failed synchronisation sets `badbit`. -/
def ofstream.flush (fs : FileSystem) (fh : ofstream) : Bool × ofstream :=
  if fs.flushOk fh.path then (false, fh)
  else
    let r := fh.ios.setstate ⟨false, false, true⟩
    (r.1, { fh with ios := r.2 })

/-- The member `close()` of `std::ofstream`: a failed close (also of a stream that is not
open) sets `failbit`. -/
def ofstream.close (fs : FileSystem) (fh : ofstream) : Bool × ofstream :=
  if fh.is_open && fs.closeOk fh.path then (false, { fh with is_open := false })
  else
    let r := fh.ios.setstate ⟨false, true, false⟩
    (r.1, { fh with is_open := false, ios := r.2 })

/-- A `std::ifstream`: `unread` is what the file holds from the read position on, `offset`
the read position. -/
structure ifstream where
  path : String
  is_open : Bool
  unread : List Byte
  offset : Nat
  ios : basic_ios
deriving DecidableEq, Repr

/-- The constructor `std::ifstream is(path, binary)`: when the open fails it sets `failbit`
(the mask is still empty, so nothing is thrown). -/
def ifstream.open (fs : FileSystem) (path : String) : ifstream :=
  match fs.files path with
  | some content =>
    { path := path, is_open := true, unread := content, offset := 0,
      ios := ⟨iostate.goodbit, iostate.goodbit⟩ }
  | none =>
    { path := path, is_open := false, unread := [], offset := 0,
      ios := ⟨⟨false, true, false⟩, iostate.goodbit⟩ }

/-- The white space of the classic locale: tab, line feed, vertical tab, form feed,
carriage return and space. -/
def isspace (c : Byte) : Bool :=
  c.val = 9 || c.val = 10 || c.val = 11 || c.val = 12 || c.val = 13 || c.val = 32

/-- What one extraction `is >> value` finds on a good stream: after the white space that
the sentry skips (`skipws` is set on every stream unless cleared) either a character, or
the end of the file, or a read error of the device. -/
inductive Extracted where
  | char (c : Byte) (rest : List Byte) (offset : Nat)
  | eof (offset : Nat)
  | error (rest : List Byte) (offset : Nat)
deriving DecidableEq, Repr

/-- The buffer side of one extraction: skip white space, then take one character. -/
def skipAndTake (readOk : Nat → Bool) : List Byte → Nat → Extracted
  | [], offset => .eof offset
  | c :: cs, offset =>
    if !readOk offset then .error (c :: cs) offset
    else if isspace c then skipAndTake readOk cs (offset + 1)
    else .char c cs (offset + 1)

/-- The extraction `is >> value` for an `unsigned char`, as `std::istream_iterator` performs
it: the thrown flag, the character when one was extracted, and the stream afterwards.  On a
stream that is not good the sentry sets `failbit`; at the end of the file it sets
`eofbit | failbit`; a read error sets `badbit`, and then `failbit` when that did not throw. -/
def ifstream.extract (fs : FileSystem) (is : ifstream) : Bool × Option Byte × ifstream :=
  if !is.ios.good then
    let r := is.ios.setstate ⟨false, true, false⟩
    (r.1, none, { is with ios := r.2 })
  else
    match skipAndTake (fs.readOk is.path) is.unread is.offset with
    | .char c rest offset => (false, some c, { is with unread := rest, offset := offset })
    | .eof offset =>
      let r := is.ios.setstate ⟨true, true, false⟩
      (r.1, none, { is with unread := [], offset := offset, ios := r.2 })
    | .error rest offset =>
      let r := is.ios.setstate ⟨false, false, true⟩
      if r.1 then (true, none, { is with unread := rest, offset := offset, ios := r.2 })
      else
        let r := r.2.setstate ⟨false, true, false⟩
        (r.1, none, { is with unread := rest, offset := offset, ios := r.2 })

/-- The call `std::copy` from `std::istream_iterator<unsigned char>(is)` to the end iterator
into `std::back_inserter(scVk)`, with `fuel` bounding the number of extractions: every
extracted character is appended to `scVk`; the copy ends when an extraction yields nothing
(the iterator becomes the end iterator) or throws. -/
def ifstream.copy (fs : FileSystem) : Nat → ifstream → ScVk → Bool × ifstream × ScVk
  | 0, is, scVk => (false, is, scVk)
  | fuel + 1, is, scVk =>
    match ifstream.extract fs is with
    | (true, _, is) => (true, is, scVk)
    | (false, none, is) => (false, is, scVk)
    | (false, some c, is) => ifstream.copy fs fuel is (scVk ++ [c])

/-- The member `close()` of `std::ifstream`: a failed close sets `failbit`. -/
def ifstream.close (fs : FileSystem) (is : ifstream) : Bool × ifstream :=
  if is.is_open && fs.closeOk is.path then (false, { is with is_open := false })
  else
    let r := is.ios.setstate ⟨false, true, false⟩
    (r.1, { is with is_open := false, ios := r.2 })

/-! ## The verification-key store -/

/-- The mask `std::ios_base::failbit | std::ios_base::badbit`. -/
def failOrBad : iostate := ⟨false, true, true⟩

/-- The function `SaveScVkToFile`: how the call ends, the file system afterwards, and the
formats of the messages passed to `error`. -/
def SaveScVkToFile (fs : FileSystem) (vkPath : String) (scVk : ScVk) :
    Outcome Bool × FileSystem × List String :=
  let (fh, fs) := ofstream.open fs vkPath
  match fh.ios.setExceptions failOrBad with
  | (true, _) => (.threw, fs, [])
  | (false, ios) =>
    let fh := { fh with ios := ios }
    match ofstream.copy fs fh scVk with
    | (true, fh, fs) =>
      match ofstream.close fs fh with
      | (true, _) => (.threw, fs, [])
      | (false, _) => (.returned false, fs, ["SaveScVkToFile(): error writing to file: %s"])
    | (false, fh, fs) =>
      match ofstream.flush fs fh with
      | (true, _) => (.threw, fs, [])
      | (false, fh) =>
        match ofstream.close fs fh with
        | (true, _) => (.threw, fs, [])
        | (false, _) => (.returned true, fs, [])

/-- The function `LoadScVkFromFile`: how the call ends, the vector `scVk` afterwards, and
the formats of the messages passed to `error`.  An extraction takes at least one byte of
the file or ends the copy, so `unread.length + 1` extractions are enough. -/
def LoadScVkFromFile (fs : FileSystem) (vkPath : String) (scVk : ScVk) :
    Outcome Bool × ScVk × List String :=
  let is := ifstream.open fs vkPath
  match is.ios.setExceptions failOrBad with
  | (true, _) => (.threw, scVk, [])
  | (false, ios) =>
    let is := { is with ios := ios }
    match ifstream.copy fs (is.unread.length + 1) is scVk with
    | (true, is, scVk) =>
      match ifstream.close fs is with
      | (true, _) => (.threw, scVk, [])
      | (false, _) => (.returned false, scVk, ["LoadScVkFromFile(): error reading from file: %s"])
    | (false, is, scVk) =>
      match ifstream.close fs is with
      | (true, _) => (.threw, scVk, [])
      | (false, _) => (.returned true, scVk, [])

/-! ## The session operations -/

/-- The inner loop `for (int i = 0; i < 20; i++) bt.pk_dest[i] = btout.pubKeyHash.begin()[i];`
started at index `i` with `n` iterations left. -/
def copyPkDest (src : List Byte) : Nat → Nat → List Byte → List Byte
  | 0, _, dest => dest
  | n + 1, i, dest => copyPkDest src n (i + 1) (dest.set i (src.getD i 0))

/-- The body of the loop over `scCert.GetVout()`: one output, appended to `btList` when it
is flagged. -/
def btListStep (toBt : CTxOut → CBackwardTransferOut) (btList : List backward_transfer_t)
    (out : CTxOut) : List backward_transfer_t :=
  if out.isFromBackwardTransfer then
    let btout := toBt out
    let pk_dest := copyPkDest btout.pubKeyHash.val 20 0 (List.replicate 20 0)
    btList ++ [{ pk_dest := pk_dest, amount := btout.nValue }]
  else btList

/-- The loop `for (auto out : scCert.GetVout())` of `createParameters`. -/
def retrieveBtList (toBt : CTxOut → CBackwardTransferOut) :
    List CTxOut → List backward_transfer_t → List backward_transfer_t
  | [], btList => btList
  | out :: rest, btList => retrieveBtList toBt rest (btListStep toBt btList out)

/-- The format of the two size-mismatch log lines. -/
def sizeMismatchFmt (field : String) : String :=
  "%s():%d - failed to deserialize \"" ++ field ++
    "\": expected vector of size: %d, found vector of size %d instead \n"

/-- The format of the three deserialization-failure log lines. -/
def deserializeFailFmt (field : String) : String :=
  "%s():%d - failed to deserialize \"" ++ field ++ "\" \n"

/-- The tail of `createParameters` from `//Deserialize sc_vk` on. -/
def createParameters_vk (ctx : Context) (scCert : CScCertificate) (scInfo : CSidechain)
    (s : Session) (tr : List Event) : Option (Bool × Session × List Event) :=
  let wCertVkPath := scInfo.wCertVkPath
  let vk := ctx.engine.deserialize_sc_vk_from_file tr wCertVkPath wCertVkPath.utf8ByteSize
  let s := { s with sc_vk := vk }
  let tr := tr ++ [Event.deserialize_sc_vk_from_file wCertVkPath wCertVkPath.utf8ByteSize vk]
  if vk = none then
    some (false, s, tr ++
      [Event.LogPrint "zendoo_mc_cryptolib" (deserializeFailFmt "sc_vk")
         [.str "createParameters", .num 131],
       Event.print_error "Failed to deserialize \"sc_vk\""])
  else
    let s := { s with end_epoch_mc_b_hash := some scCert.endEpochBlockHash }
    let targetHeight := scInfo.StartHeightForEpoch scCert.epochNumber - 1
    match ctx.chainActive targetHeight with
    | none => none
    | some hash =>
      let s := { s with prev_end_epoch_mc_b_hash := some hash }
      let btList := retrieveBtList ctx.toBackwardTransferOut scCert.vout []
      some (true, { s with bt_list := btList }, tr)

/-- The part of `createParameters` from `//Initialize quality and proofdata` on. -/
def createParameters_proof (ctx : Context) (scCert : CScCertificate) (scInfo : CSidechain)
    (s : Session) (tr : List Event) : Option (Bool × Session × List Event) :=
  let s := { s with quality := scCert.quality, proofdata := none }
  let sc_proof_bytes := scCert.scProof
  if sc_proof_bytes.length ≠ ctx.engine.zendoo_get_sc_proof_size then
    some (false, s, tr ++
      [Event.LogPrint "zendoo_mc_cryptolib" (sizeMismatchFmt "sc_proof")
         [.str "createParameters", .num 95, .num sc_proof_bytes.length,
          .num ctx.engine.zendoo_get_sc_proof_size]])
  else
    let p := ctx.engine.deserialize_sc_proof tr sc_proof_bytes
    let s := { s with sc_proof := p }
    let tr := tr ++ [Event.deserialize_sc_proof sc_proof_bytes p]
    if p = none then
      some (false, s, tr ++
        [Event.LogPrint "zendoo_mc_cryptolib" (deserializeFailFmt "sc_proof")
           [.str "createParameters", .num 106],
         Event.print_error "Failed to deserialize \"sc_proof\""])
    else createParameters_vk ctx scCert scInfo s tr

/-- The method `CScWCertProofVerificationParameters::createParameters`.  The result is
`none` when the call dereferences a null block index (`chainActive[targetHeight]`), and
otherwise the returned boolean with the session and the trace at the return. -/
def createParameters (ctx : Context) (scCert : CScCertificate) (scInfo : CSidechain)
    (s : Session) (tr : List Event) : Option (Bool × Session × List Event) :=
  let constant_bytes := scInfo.constant
  if constant_bytes.length = 0 then
    createParameters_proof ctx scCert scInfo { s with constant := none } tr
  else if constant_bytes.length ≠ ctx.engine.zendoo_get_field_size_in_bytes then
    some (false, s, tr ++
      [Event.LogPrint "zendoo_mc_cryptolib" (sizeMismatchFmt "constant")
         [.str "createParameters", .num 68, .num constant_bytes.length,
          .num ctx.engine.zendoo_get_field_size_in_bytes]])
  else
    let c := ctx.engine.deserialize_field tr constant_bytes
    let s := { s with constant := c }
    let tr := tr ++ [Event.deserialize_field constant_bytes c]
    if c = none then
      some (false, s, tr ++
        [Event.LogPrint "zendoo_mc_cryptolib" (deserializeFailFmt "constant")
           [.str "createParameters", .num 79],
         Event.print_error "Failed to deserialize \"constant\""])
    else createParameters_proof ctx scCert scInfo s tr

/-- The arguments `verifierCall` passes to `verify_sc_proof`. -/
def Session.verifyArgs (s : Session) : VerifyArgs :=
  { end_epoch_mc_b_hash := s.end_epoch_mc_b_hash
    prev_end_epoch_mc_b_hash := s.prev_end_epoch_mc_b_hash
    bt_list := s.bt_list
    bt_list_len := s.bt_list.length
    quality := s.quality
    constant := s.constant
    proofdata := s.proofdata
    sc_proof := s.sc_proof
    sc_vk := s.sc_vk }

/-- The method `CScWCertProofVerificationParameters::verifierCall`: the returned boolean,
the session after the call and the trace after the call. -/
def verifierCall (ctx : Context) (s : Session) (tr : List Event) :
    Bool × Session × List Event :=
  let ok := ctx.engine.verify_sc_proof tr s.verifyArgs
  let tr := tr ++ [Event.verify_sc_proof s.verifyArgs ok]
  if !ok then
    let category := ctx.engine.zendoo_get_last_error tr
    let tr := tr ++ [Event.zendoo_get_last_error category]
    if category = ctx.engine.CRYPTO_ERROR then
      (false, s, tr ++
        [Event.LogPrint "zendoo_mc_cryptolib" "%s():%d - failed to verify \"sc_proof\" \n"
           [.str "verifierCall", .num 173],
         Event.print_error "Failed to verify sc_proof"])
    else (false, s, tr)
  else (true, s, tr)

/-- The method `CScWCertProofVerificationParameters::freeParameters`. -/
def freeParameters (s : Session) (tr : List Event) : Session × List Event :=
  let s := { s with end_epoch_mc_b_hash := none }
  let s := { s with prev_end_epoch_mc_b_hash := none }
  let tr := tr ++ [Event.zendoo_field_free s.constant]
  let s := { s with constant := none }
  let tr := tr ++ [Event.zendoo_field_free s.proofdata]
  let s := { s with proofdata := none }
  let tr := tr ++ [Event.zendoo_sc_proof_free s.sc_proof]
  let s := { s with sc_proof := none }
  let tr := tr ++ [Event.zendoo_sc_vk_free s.sc_vk]
  let s := { s with sc_vk := none }
  (s, tr ++ [Event.zendoo_clear_error])

/-! ## Reading a trace -/

/-- The three types of engine objects the session owns. -/
inductive HandleKind where
  | field
  | sc_proof
  | sc_vk
deriving DecidableEq, Repr

/-- A non-null handle: its type and its address. -/
structure Handle where
  kind : HandleKind
  addr : Nat
deriving DecidableEq, Repr

/-- The non-null handle a deserialize call returned, with its type. -/
def Event.allocates : Event → Option Handle
  | .deserialize_field _ (some a) => some ⟨.field, a⟩
  | .deserialize_sc_proof _ (some a) => some ⟨.sc_proof, a⟩
  | .deserialize_sc_vk_from_file _ _ (some a) => some ⟨.sc_vk, a⟩
  | _ => none

/-- The non-null handle passed to a release function, with the type of that function. -/
def Event.releases : Event → Option Handle
  | .zendoo_field_free (some a) => some ⟨.field, a⟩
  | .zendoo_sc_proof_free (some a) => some ⟨.sc_proof, a⟩
  | .zendoo_sc_vk_free (some a) => some ⟨.sc_vk, a⟩
  | _ => none

/-- Whether the event is a call of one of the three deserialize functions. -/
def Event.isDeserialize : Event → Bool
  | .deserialize_field _ _ => true
  | .deserialize_sc_proof _ _ => true
  | .deserialize_sc_vk_from_file _ _ _ => true
  | _ => false

/-- Whether the event is a call of one of the three release functions. -/
def Event.isRelease : Event → Bool
  | .zendoo_field_free _ => true
  | .zendoo_sc_proof_free _ => true
  | .zendoo_sc_vk_free _ => true
  | _ => false

/-- The non-null handles returned by the deserialize calls of a trace, in call order. -/
def allocated (tr : List Event) : List Handle := tr.filterMap Event.allocates

/-- The non-null handles passed to the release functions in a trace, in call order. -/
def released (tr : List Event) : List Handle := tr.filterMap Event.releases

/-- The non-null handles a session holds, each with the type of the release function
`freeParameters` passes it to, in the order of `freeParameters`. -/
def Session.held (s : Session) : List Handle :=
  (s.constant.toList.map fun a => Handle.mk HandleKind.field a) ++
  (s.proofdata.toList.map fun a => Handle.mk HandleKind.field a) ++
  (s.sc_proof.toList.map fun a => Handle.mk HandleKind.sc_proof a) ++
  (s.sc_vk.toList.map fun a => Handle.mk HandleKind.sc_vk a)

/-- The text tinyformat prints for an argument under `%s` or `%d`. -/
def FormatArg.text : FormatArg → List Char
  | .str s => s.data
  | .num n => (Nat.repr n).data

/-- Substitution of the conversions `%s` and `%d` of a format by the arguments, in order. -/
def formatChars : List Char → List FormatArg → List Char
  | [], _ => []
  | [c], _ => [c]
  | c :: d :: cs, [] => c :: formatChars (d :: cs) []
  | c :: d :: cs, a :: rest =>
    if c = '%' && (d = 's' || d = 'd') then a.text ++ formatChars cs rest
    else c :: formatChars (d :: cs) (a :: rest)

/-- The line a `LogPrint(category, fmt, args...)` call writes. -/
def format (fmt : String) (args : List FormatArg) : String :=
  String.mk (formatChars fmt.data args)

/-! ## Concrete inputs -/

/-- A device on which every operation succeeds and which holds no file. -/
def emptyDisk : FileSystem :=
  { files := fun _ => none, writable := fun _ => true, putOk := fun _ _ => true,
    flushOk := fun _ => true, closeOk := fun _ => true, readOk := fun _ _ => true }

/-- An engine with two-byte field elements and three-byte proofs whose deserialize calls
all succeed, returning the addresses 7, 8 and 9. -/
def sampleEngine : Engine :=
  { zendoo_get_field_size_in_bytes := 2
    zendoo_get_sc_proof_size := 3
    CRYPTO_ERROR := 2
    deserialize_field := fun _ _ => some 7
    deserialize_sc_proof := fun _ _ => some 8
    deserialize_sc_vk_from_file := fun _ _ _ => some 9
    verify_sc_proof := fun _ _ => true
    zendoo_get_last_error := fun _ => 0 }

/-- A context around `sampleEngine`: every height is on the chain, and an output converts to
its own value and to the destination made of twenty copies of the first byte of its script. -/
def sampleContext : Context :=
  { engine := sampleEngine
    chainActive := fun _ => some [0xAA]
    toBackwardTransferOut := fun out =>
      ⟨out.nValue, ⟨List.replicate 20 (out.scriptPubKey.headD 0), List.length_replicate _ _⟩⟩ }

/-- A certificate with a proof of the right size and three outputs, two of them flagged. -/
def sampleCert : CScCertificate :=
  { epochNumber := 1
    quality := 5
    scProof := [1, 2, 3]
    endEpochBlockHash := [0xBB]
    vout := [⟨10, [1], true⟩, ⟨20, [2], false⟩, ⟨30, [3], true⟩] }

/-- The same certificate with a proof that is one byte short. -/
def shortProofCert : CScCertificate := { sampleCert with scProof := [1, 2] }

/-- A sidechain without constant. -/
def sampleInfo : CSidechain :=
  { constant := [], wCertVkPath := "vk", StartHeightForEpoch := fun e => 100 * e }

/-- A sidechain whose constant has the field-element size. -/
def constantInfo : CSidechain := { sampleInfo with constant := [1, 2] }

/-- A sidechain whose constant is one byte long, not the field-element size. -/
def badConstantInfo : CSidechain := { sampleInfo with constant := [1] }

/-- The Empty session: every pointer null, no backward transfer. -/
def emptySession : Session :=
  { end_epoch_mc_b_hash := none, prev_end_epoch_mc_b_hash := none, bt_list := [],
    quality := 0, constant := none, proofdata := none, sc_proof := none, sc_vk := none }

/-- The session `createParameters` prepares from `sampleCert` and `sampleInfo`. -/
def preparedSession : Session :=
  { end_epoch_mc_b_hash := some [0xBB], prev_end_epoch_mc_b_hash := some [0xAA],
    bt_list := [⟨List.replicate 20 1, 10⟩, ⟨List.replicate 20 3, 30⟩],
    quality := 5, constant := none, proofdata := none, sc_proof := some 8,
    sc_vk := some 9 }

/-- The engine calls of that run. -/
def preparedTrace : List Event :=
  [Event.deserialize_sc_proof [1, 2, 3] (some 8),
   Event.deserialize_sc_vk_from_file "vk" 2 (some 9)]

/-- A device on which no file can be opened for writing. -/
def readOnlyDisk : FileSystem := { emptyDisk with writable := fun _ => false }

/-! ## Lemmas on the loops and on the trace -/

/-- The byte at index `j` after the copy loop: the source byte inside the copied range, the
old byte outside it. -/
theorem copyPkDest_getElem? (src : List Byte) (n i : Nat) (dest : List Byte) (j : Nat) :
    (copyPkDest src n i dest)[j]? =
      if i ≤ j ∧ j < i + n ∧ j < dest.length then some (src.getD j 0) else dest[j]? := by
  induction n generalizing i dest with
  | zero =>
    have : ¬ (i ≤ j ∧ j < i + 0 ∧ j < dest.length) := by omega
    rw [copyPkDest, if_neg this]
  | succ n ih =>
    rw [copyPkDest, ih, List.length_set, List.getElem?_set]
    by_cases hij : i = j
    · subst hij
      by_cases hl : i < dest.length
      · have h1 : ¬ (i + 1 ≤ i ∧ i < i + 1 + n ∧ i < dest.length) := by omega
        have h2 : i ≤ i ∧ i < i + (n + 1) ∧ i < dest.length := by omega
        rw [if_neg h1, if_pos h2]
        simp [hl]
      · have h1 : ¬ (i + 1 ≤ i ∧ i < i + 1 + n ∧ i < dest.length) := by omega
        have h2 : ¬ (i ≤ i ∧ i < i + (n + 1) ∧ i < dest.length) := by omega
        rw [if_neg h1, if_neg h2]
        simp [hl]
        omega
    · by_cases hc : i + 1 ≤ j ∧ j < i + 1 + n ∧ j < dest.length
      · have h2 : i ≤ j ∧ j < i + (n + 1) ∧ j < dest.length := by omega
        rw [if_pos hc, if_pos h2]
      · have h2 : ¬ (i ≤ j ∧ j < i + (n + 1) ∧ j < dest.length) := by omega
        rw [if_neg hc, if_neg h2]
        simp [hij]

/-- The twenty iterations of the copy loop fill `pk_dest` with the twenty bytes of the hash. -/
theorem copyPkDest_uint160 (h : uint160) :
    copyPkDest h.val 20 0 (List.replicate 20 0) = h.val.take 20 := by
  obtain ⟨l, hl⟩ := h
  apply List.ext_getElem?
  intro j
  rw [copyPkDest_getElem?, List.length_replicate]
  by_cases hj : j < 20
  · have h1 : 0 ≤ j ∧ j < 0 + 20 ∧ j < 20 := by omega
    rw [if_pos h1, List.getElem?_take_of_lt hj]
    simp [List.getD_eq_getElem?_getD, List.getElem?_eq_getElem (show j < l.length by omega)]
  · have h1 : ¬ (0 ≤ j ∧ j < 0 + 20 ∧ j < 20) := by omega
    rw [if_neg h1]
    rw [List.getElem?_eq_none (by rw [List.length_replicate]; omega),
      List.getElem?_eq_none (by rw [List.length_take]; omega)]

/-- One iteration of the output loop, with the copied destination written out. -/
theorem btListStep_eq (toBt : CTxOut → CBackwardTransferOut)
    (btList : List backward_transfer_t) (out : CTxOut) :
    btListStep toBt btList out =
      if out.isFromBackwardTransfer then
        btList ++ [{ pk_dest := (toBt out).pubKeyHash.val.take 20, amount := (toBt out).nValue }]
      else btList := by
  unfold btListStep
  simp only [copyPkDest_uint160]

/-- The output loop appends the flagged outputs, in order, to the list it started with. -/
theorem retrieveBtList_eq (toBt : CTxOut → CBackwardTransferOut) (outs : List CTxOut)
    (acc : List backward_transfer_t) :
    retrieveBtList toBt outs acc =
      acc ++ (outs.filter (fun out => out.isFromBackwardTransfer)).map
        (fun out => { pk_dest := (toBt out).pubKeyHash.val.take 20, amount := (toBt out).nValue }) := by
  induction outs generalizing acc with
  | nil => simp [retrieveBtList]
  | cons out rest ih =>
    rw [retrieveBtList, ih, btListStep_eq]
    by_cases hf : out.isFromBackwardTransfer = true
    · simp [hf]
    · simp [hf]

/-- The calls of `freeParameters`: it releases exactly the handles the session holds. -/
theorem freeParameters_trace (s : Session) (tr : List Event) :
    ∃ evs, (freeParameters s tr).2 = tr ++ evs ∧ released evs = s.held ∧ allocated evs = [] := by
  refine ⟨[Event.zendoo_field_free s.constant, Event.zendoo_field_free s.proofdata,
    Event.zendoo_sc_proof_free s.sc_proof, Event.zendoo_sc_vk_free s.sc_vk,
    Event.zendoo_clear_error], ?_, ?_, ?_⟩
  · simp [freeParameters]
  · rcases s with ⟨_, _, _, _, c, d, p, v⟩
    cases c <;> cases d <;> cases p <;> cases v <;> rfl
  · rfl

/-- The calls of the last part of `createParameters`: the only handle it can obtain is the
one it stores in `sc_vk`. -/
theorem createParameters_vk_trace (ctx : Context) (scCert : CScCertificate)
    (scInfo : CSidechain) (s : Session) (tr : List Event) (b : Bool) (s1 : Session)
    (tr1 : List Event)
    (hret : createParameters_vk ctx scCert scInfo s tr = some (b, s1, tr1)) :
    ∃ evs, tr1 = tr ++ evs ∧
      allocated evs = s1.sc_vk.toList.map (fun a => Handle.mk HandleKind.sc_vk a) ∧
      released evs = [] ∧ s1.constant = s.constant ∧ s1.proofdata = s.proofdata ∧
      s1.sc_proof = s.sc_proof := by
  unfold createParameters_vk at hret
  simp only [] at hret
  revert hret
  generalize ctx.engine.deserialize_sc_vk_from_file tr scInfo.wCertVkPath
    scInfo.wCertVkPath.utf8ByteSize = vk
  intro hret
  rcases vk with _ | a
  · simp at hret
    obtain ⟨-, rfl, rfl⟩ := hret
    exact ⟨_, rfl, rfl, rfl, rfl, rfl, rfl⟩
  · simp at hret
    split at hret
    · simp at hret
    · simp at hret
      obtain ⟨-, rfl, rfl⟩ := hret
      exact ⟨_, rfl, rfl, rfl, rfl, rfl, rfl⟩

/-- The calls of `createParameters` from the proof on: the handles obtained are the ones
stored in `sc_proof` and `sc_vk`. -/
theorem createParameters_proof_trace (ctx : Context) (scCert : CScCertificate)
    (scInfo : CSidechain) (s : Session) (tr : List Event) (b : Bool) (s1 : Session)
    (tr1 : List Event) (hp : s.sc_proof = none) (hv : s.sc_vk = none)
    (hret : createParameters_proof ctx scCert scInfo s tr = some (b, s1, tr1)) :
    ∃ evs, tr1 = tr ++ evs ∧
      allocated evs = (s1.sc_proof.toList.map fun a => Handle.mk HandleKind.sc_proof a) ++
        (s1.sc_vk.toList.map fun a => Handle.mk HandleKind.sc_vk a) ∧
      released evs = [] ∧ s1.constant = s.constant ∧ s1.proofdata = none := by
  unfold createParameters_proof at hret
  simp only [] at hret
  split at hret
  · simp at hret
    obtain ⟨-, rfl, rfl⟩ := hret
    refine ⟨_, rfl, ?_, rfl, rfl, rfl⟩
    simp [hp, hv, allocated, Event.allocates]
  · revert hret
    generalize ctx.engine.deserialize_sc_proof tr scCert.scProof = p
    intro hret
    rcases p with _ | a
    · simp at hret
      obtain ⟨-, rfl, rfl⟩ := hret
      refine ⟨_, rfl, ?_, rfl, rfl, rfl⟩
      simp [hv, allocated, Event.allocates]
    · simp at hret
      obtain ⟨evs, rfl, h1, h2, h3, h4, h5⟩ := createParameters_vk_trace _ _ _ _ _ _ _ _ hret
      refine ⟨_, List.append_assoc _ _ _, ?_, ?_, ?_, ?_⟩
      · simp [allocated, Event.allocates] at h1 ⊢
        simp [h1, h5]
      · simpa [released, Event.releases] using h2
      · rw [h3]
      · rw [h4]

/-- The calls of `createParameters` on an Empty session: the handles obtained are exactly the
handles the session holds at the return, and nothing is released. -/
theorem createParameters_trace (ctx : Context) (scCert : CScCertificate)
    (scInfo : CSidechain) (s : Session) (tr : List Event) (b : Bool) (s1 : Session)
    (tr1 : List Event)
    (hc : s.constant = none) (hd : s.proofdata = none) (hp : s.sc_proof = none)
    (hv : s.sc_vk = none)
    (hret : createParameters ctx scCert scInfo s tr = some (b, s1, tr1)) :
    ∃ evs, tr1 = tr ++ evs ∧ allocated evs = s1.held ∧ released evs = [] ∧
      s1.proofdata = none := by
  unfold createParameters at hret
  simp only [] at hret
  split at hret
  · obtain ⟨evs, rfl, h1, h2, h3, h4⟩ :=
      createParameters_proof_trace _ _ _ _ _ _ _ _ (by exact hp) (by exact hv) hret
    refine ⟨evs, rfl, ?_, h2, h4⟩
    simp only [Session.held, h3, h4, h1]
    simp
  · split at hret
    · simp at hret
      obtain ⟨-, rfl, rfl⟩ := hret
      refine ⟨_, rfl, ?_, rfl, hd⟩
      simp [Session.held, hc, hd, hp, hv, allocated, Event.allocates]
    · revert hret
      generalize ctx.engine.deserialize_field tr scInfo.constant = c
      intro hret
      rcases c with _ | a
      · simp at hret
        obtain ⟨-, rfl, rfl⟩ := hret
        refine ⟨_, rfl, ?_, rfl, hd⟩
        simp [Session.held, hd, hp, hv, allocated, Event.allocates]
      · simp at hret
        obtain ⟨evs, rfl, h1, h2, h3, h4⟩ :=
          createParameters_proof_trace _ _ _ _ _ _ _ _ (by exact hp) (by exact hv) hret
        refine ⟨_, List.append_assoc _ _ _, ?_, ?_, h4⟩
        · simp [allocated, Event.allocates] at h1 ⊢
          simp [Session.held, h1, h3, h4]
        · simpa [released, Event.releases] using h2

/-- What the session holds when `createParameters` returns true. -/
theorem createParameters_true (ctx : Context) (scCert : CScCertificate)
    (scInfo : CSidechain) (s : Session) (tr : List Event) (s1 : Session) (tr1 : List Event)
    (hret : createParameters ctx scCert scInfo s tr = some (true, s1, tr1)) :
    s1.sc_proof ≠ none ∧ s1.sc_vk ≠ none ∧ s1.proofdata = none ∧ s1.quality = scCert.quality ∧
    (s1.constant = none ↔ scInfo.constant = []) ∧
    s1.bt_list = retrieveBtList ctx.toBackwardTransferOut scCert.vout [] := by
  unfold createParameters createParameters_proof createParameters_vk at hret
  simp only [] at hret
  split at hret
  · split at hret
    · simp at hret
    · split at hret
      · simp at hret
      · split at hret
        · simp at hret
        · split at hret
          · simp at hret
          · simp at hret
            obtain ⟨rfl, rfl⟩ := hret
            simp_all
  · split at hret
    · simp at hret
    · split at hret
      · simp at hret
      · split at hret
        · simp at hret
        · split at hret
          · simp at hret
          · split at hret
            · simp at hret
            · split at hret
              · simp at hret
              · simp at hret
                obtain ⟨rfl, rfl⟩ := hret
                simp_all

/-- The proof-size branch: a log line, and false. -/
theorem createParameters_proof_mismatch (ctx : Context) (scCert : CScCertificate)
    (scInfo : CSidechain) (s : Session) (tr : List Event)
    (hne : scCert.scProof.length ≠ ctx.engine.zendoo_get_sc_proof_size) :
    createParameters_proof ctx scCert scInfo s tr =
      some (false, { s with quality := scCert.quality, proofdata := none },
        tr ++ [Event.LogPrint "zendoo_mc_cryptolib" (sizeMismatchFmt "sc_proof")
          [.str "createParameters", .num 95, .num scCert.scProof.length,
           .num ctx.engine.zendoo_get_sc_proof_size]]) := by
  unfold createParameters_proof
  simp only []
  rw [if_pos hne]

/-- With a null proofdata the handles a session holds have pairwise different types. -/
theorem held_nodup (s : Session) (hd : s.proofdata = none) : s.held.Nodup := by
  rcases s with ⟨_, _, _, _, c, d, p, v⟩
  simp only at hd
  subst hd
  cases c <;> cases p <;> cases v <;> simp [Session.held]

/-- An extraction that yields a character consumes at least one byte of the file. -/
theorem skipAndTake_char_length (readOk : Nat → Bool) (l : List Byte) (off : Nat)
    (c : Byte) (rest : List Byte) (off1 : Nat)
    (h : skipAndTake readOk l off = .char c rest off1) : rest.length < l.length := by
  induction l generalizing off with
  | nil => simp [skipAndTake] at h
  | cons a l ih =>
    unfold skipAndTake at h
    split at h
    · simp at h
    · split at h
      · have := ih _ h
        simp only [List.length_cons]
        omega
      · simp only [Extracted.char.injEq] at h
        obtain ⟨-, rfl, -⟩ := h
        simp

/-- On a good stream whose mask holds `failbit` and `badbit`, the copy with enough fuel
always ends by a throw: the end of the file sets `failbit`. -/
theorem ifstream_copy_throws (fs : FileSystem) (fuel : Nat) (is : ifstream) (scVk : ScVk)
    (hgood : is.ios.good = true) (hmask : is.ios.exceptions = failOrBad)
    (hfuel : is.unread.length < fuel) :
    (ifstream.copy fs fuel is scVk).1 = true := by
  induction fuel generalizing is scVk with
  | zero => omega
  | succ fuel ih =>
    unfold ifstream.copy ifstream.extract
    rw [hgood]
    simp only [Bool.not_true, Bool.false_eq_true, if_false]
    rcases hs : skipAndTake (fs.readOk is.path) is.unread is.offset with ⟨c, rest, off⟩ | off | ⟨rest, off⟩
    · simp only []
      apply ih
      · exact hgood
      · exact hmask
      · have := skipAndTake_char_length _ _ _ _ _ _ hs
        simp only
        omega
    · simp [basic_ios.setstate, basic_ios.clear, iostate.meets, iostate.union, hmask, failOrBad]
    · simp [basic_ios.setstate, basic_ios.clear, iostate.meets, iostate.union, hmask, failOrBad]

/-- The function `LoadScVkFromFile` never returns true. -/
theorem LoadScVkFromFile_never_true (fs : FileSystem) (vkPath : String) (scVk : ScVk) :
    (LoadScVkFromFile fs vkPath scVk).1 ≠ .returned true := by
  unfold LoadScVkFromFile ifstream.open
  rcases hf : fs.files vkPath with _ | content
  · simp [basic_ios.setExceptions, basic_ios.clear, iostate.meets, failOrBad, iostate.goodbit]
  · simp only [basic_ios.setExceptions, basic_ios.clear, iostate.meets, failOrBad,
      iostate.goodbit, Bool.and_false, Bool.false_and, Bool.or_false, Bool.and_true]
    have hthrow := ifstream_copy_throws fs (content.length + 1)
      { path := vkPath, is_open := true, unread := content, offset := 0,
        ios := ⟨⟨false, false, false⟩, ⟨false, true, true⟩⟩ } scVk rfl rfl (Nat.lt_succ_self _)
    revert hthrow
    generalize ifstream.copy fs (content.length + 1) _ scVk = r
    rcases r with ⟨t, is1, v⟩
    intro hthrow
    simp only at hthrow
    subst hthrow
    simp only []
    split <;> simp

/-- On a path without file, `LoadScVkFromFile` ends with the exception of `exceptions`. -/
theorem LoadScVkFromFile_missing (fs : FileSystem) (vkPath : String) (scVk : ScVk)
    (hf : fs.files vkPath = none) :
    LoadScVkFromFile fs vkPath scVk = (.threw, scVk, []) := by
  unfold LoadScVkFromFile ifstream.open
  rw [hf]
  rfl

/-! ## Theorems -/

/-- Claim C1: `createParameters` run on an Empty session (constant, proofdata, `sc_proof`,
`sc_vk` null) and followed by `freeParameters`, whichever boolean `createParameters`
returned: the non-null handles passed to the release functions are exactly the non-null
handles the deserialize calls returned, each to the release function of its type; every
handle returned is released exactly once and nothing else is released. -/
theorem create_then_free_releases_each_handle_once (ctx : Context)
    (scCert : CScCertificate) (scInfo : CSidechain) (s : Session) (tr : List Event)
    (b : Bool) (s1 : Session) (tr1 : List Event)
    (hc : s.constant = none) (hd : s.proofdata = none) (hp : s.sc_proof = none)
    (hv : s.sc_vk = none)
    (hret : createParameters ctx scCert scInfo s tr = some (b, s1, tr1)) :
    ∃ evs, (freeParameters s1 tr1).2 = tr ++ evs ∧
      released evs = allocated evs ∧ (allocated evs).Nodup ∧
      (∀ h ∈ allocated evs, (released evs).count h = 1) ∧
      (∀ h, h ∉ allocated evs → (released evs).count h = 0) := by
  obtain ⟨evs, rfl, ha, hr, hd1⟩ := createParameters_trace _ _ _ _ _ _ _ _ hc hd hp hv hret
  obtain ⟨fevs, hf, hfr, hfa⟩ := freeParameters_trace s1 (tr ++ evs)
  have hal : allocated (evs ++ fevs) = s1.held := by
    unfold allocated at ha hfa ⊢
    rw [List.filterMap_append, ha, hfa, List.append_nil]
  have hrl : released (evs ++ fevs) = s1.held := by
    unfold released at hr hfr ⊢
    rw [List.filterMap_append, hr, hfr, List.nil_append]
  refine ⟨evs ++ fevs, by rw [hf, List.append_assoc], by rw [hal, hrl], ?_, ?_, ?_⟩
  · rw [hal]; exact held_nodup s1 hd1
  · intro h hh
    rw [hrl]
    rw [hal] at hh
    exact List.count_eq_one_of_mem (held_nodup s1 hd1) hh
  · intro h hh
    rw [hrl]
    rw [hal] at hh
    exact List.count_eq_zero_of_not_mem hh

/-- Witness of claim C1: a run that deserializes the constant and then fails on the proof
size. -/
theorem create_then_free_releases_each_handle_once_witness :
    ∃ evs, (freeParameters
        { emptySession with quality := 5, constant := some 7 }
        [Event.deserialize_field [1, 2] (some 7),
         Event.LogPrint "zendoo_mc_cryptolib" (sizeMismatchFmt "sc_proof")
           [.str "createParameters", .num 95, .num 2, .num 3]]).2 = [] ++ evs ∧
      released evs = allocated evs ∧ (allocated evs).Nodup ∧
      (∀ h ∈ allocated evs, (released evs).count h = 1) ∧
      (∀ h, h ∉ allocated evs → (released evs).count h = 0) :=
  create_then_free_releases_each_handle_once sampleContext shortProofCert constantInfo
    emptySession [] false _ _ rfl rfl rfl rfl (by decide)

/-- Claim C2, evaluated: `SaveScVkToFile` of the key `[65, 32, 66]` succeeds and stores these
bytes, and `LoadScVkFromFile` of the same path into an empty vector returns false and
leaves `[65, 66]` (the space is skipped); the same happens with an empty key; and
`LoadScVkFromFile` returns true on no file system, path and vector at all, because the end
of the file raises `failbit`, which is in the exception mask. -/
theorem LoadScVkFromFile_after_save_fails :
    (SaveScVkToFile emptyDisk "vk" [65, 32, 66]).1 = .returned true ∧
    (SaveScVkToFile emptyDisk "vk" [65, 32, 66]).2.1.files "vk" = some [65, 32, 66] ∧
    LoadScVkFromFile (SaveScVkToFile emptyDisk "vk" [65, 32, 66]).2.1 "vk" [] =
      (.returned false, [65, 66], ["LoadScVkFromFile(): error reading from file: %s"]) ∧
    (SaveScVkToFile emptyDisk "vk" []).1 = .returned true ∧
    LoadScVkFromFile (SaveScVkToFile emptyDisk "vk" []).2.1 "vk" [] =
      (.returned false, [], ["LoadScVkFromFile(): error reading from file: %s"]) ∧
    ∀ (fs : FileSystem) (vkPath : String) (scVk : ScVk),
      (LoadScVkFromFile fs vkPath scVk).1 ≠ .returned true :=
  ⟨by decide, by decide, by decide, by decide, by decide, LoadScVkFromFile_never_true⟩

/-- Counterexample to claim C3: with a constant of the field-element size that
deserializes to the handle 7 and a proof one byte short, `createParameters` on the Empty
session returns false and the session holds the handle 7 in `constant`. -/
theorem proof_size_mismatch_keeps_constant_handle :
    shortProofCert.scProof.length ≠ sampleContext.engine.zendoo_get_sc_proof_size ∧
    emptySession.constant = none ∧ emptySession.proofdata = none ∧
    emptySession.sc_proof = none ∧ emptySession.sc_vk = none ∧
    createParameters sampleContext shortProofCert constantInfo emptySession [] =
      some (false,
        { end_epoch_mc_b_hash := none, prev_end_epoch_mc_b_hash := none, bt_list := [],
          quality := 5, constant := some 7, proofdata := none, sc_proof := none,
          sc_vk := none },
        [Event.deserialize_field [1, 2] (some 7),
         Event.LogPrint "zendoo_mc_cryptolib" (sizeMismatchFmt "sc_proof")
           [.str "createParameters", .num 95, .num 2, .num 3]]) := by
  decide

/-- Claim C3 as amended: on an Empty session, a proof whose length differs from the proof
size makes `createParameters` return false, whatever the constant; `sc_proof`, `sc_vk` and
proofdata are null, neither `deserialize_sc_proof` nor `deserialize_sc_vk_from_file` is
called, and the only non-null handle a deserialize call returned is the one the session
holds in `constant`; with a constant that is empty or of another size than a field element
`constant` is null too. -/
theorem createParameters_proof_size_mismatch (ctx : Context) (scCert : CScCertificate)
    (scInfo : CSidechain) (s : Session) (tr : List Event)
    (hc : s.constant = none) (hd : s.proofdata = none) (hp : s.sc_proof = none)
    (hv : s.sc_vk = none)
    (hne : scCert.scProof.length ≠ ctx.engine.zendoo_get_sc_proof_size) :
    ∃ s1 evs, createParameters ctx scCert scInfo s tr = some (false, s1, tr ++ evs) ∧
      s1.sc_proof = none ∧ s1.sc_vk = none ∧ s1.proofdata = none ∧
      allocated evs = s1.constant.toList.map (fun a => Handle.mk HandleKind.field a) ∧
      (scInfo.constant.length ≠ ctx.engine.zendoo_get_field_size_in_bytes →
        s1.constant = none) ∧
      evs.filter (fun e => match e with
        | .deserialize_sc_proof _ _ => true
        | .deserialize_sc_vk_from_file _ _ _ => true
        | _ => false) = [] := by
  unfold createParameters
  simp only []
  by_cases h0 : scInfo.constant.length = 0
  · rw [if_pos h0, createParameters_proof_mismatch _ _ _ _ _ hne]
    exact ⟨_, _, rfl, hp, hv, rfl, rfl, fun _ => rfl, rfl⟩
  · rw [if_neg h0]
    by_cases h1 : scInfo.constant.length ≠ ctx.engine.zendoo_get_field_size_in_bytes
    · rw [if_pos h1]
      exact ⟨_, _, rfl, hp, hv, hd, by rw [hc]; rfl, fun _ => hc, rfl⟩
    · rw [if_neg h1]
      rcases hcv : ctx.engine.deserialize_field tr scInfo.constant with _ | a
      · simp only [if_true, List.append_assoc]
        exact ⟨_, _, rfl, hp, hv, hd, rfl, fun _ => rfl, rfl⟩
      · rw [if_neg (by simp), createParameters_proof_mismatch _ _ _ _ _ hne]
        simp only [List.append_assoc]
        exact ⟨_, _, rfl, hp, hv, rfl, rfl, fun h => absurd h h1, rfl⟩

/-- Witness of the amended claim C3. -/
theorem createParameters_proof_size_mismatch_witness :
    ∃ s1 evs, createParameters sampleContext shortProofCert constantInfo emptySession [] =
        some (false, s1, [] ++ evs) ∧
      s1.sc_proof = none ∧ s1.sc_vk = none ∧ s1.proofdata = none ∧
      allocated evs = s1.constant.toList.map (fun a => Handle.mk HandleKind.field a) ∧
      (constantInfo.constant.length ≠ sampleContext.engine.zendoo_get_field_size_in_bytes →
        s1.constant = none) ∧
      evs.filter (fun e => match e with
        | .deserialize_sc_proof _ _ => true
        | .deserialize_sc_vk_from_file _ _ _ => true
        | _ => false) = [] :=
  createParameters_proof_size_mismatch sampleContext shortProofCert constantInfo
    emptySession [] rfl rfl rfl rfl (by decide)

/-- Claim C4: a constant whose length is positive and differs from the field-element size makes
`createParameters` return false with the session exactly as before the call; the only call
it makes is the log line, so no deserialize function is called and no handle allocated. -/
theorem createParameters_constant_size_mismatch (ctx : Context) (scCert : CScCertificate)
    (scInfo : CSidechain) (s : Session) (tr : List Event)
    (hpos : 0 < scInfo.constant.length)
    (hne : scInfo.constant.length ≠ ctx.engine.zendoo_get_field_size_in_bytes) :
    ∃ tr1, createParameters ctx scCert scInfo s tr = some (false, s, tr1) ∧
      tr1 = tr ++ [Event.LogPrint "zendoo_mc_cryptolib" (sizeMismatchFmt "constant")
        [.str "createParameters", .num 68, .num scInfo.constant.length,
         .num ctx.engine.zendoo_get_field_size_in_bytes]] ∧
      (tr1.drop tr.length).filter Event.isDeserialize = [] ∧
      allocated (tr1.drop tr.length) = [] := by
  refine ⟨_, ?_, rfl, ?_, ?_⟩
  · unfold createParameters
    simp only [ne_eq]
    rw [if_neg (Nat.pos_iff_ne_zero.mp hpos), if_pos hne]
  · simp [Event.isDeserialize]
  · simp [allocated, Event.allocates]

/-- Witness of claim C4 on a one-byte constant against a two-byte field element. -/
theorem createParameters_constant_size_mismatch_witness :
    ∃ tr1, createParameters sampleContext sampleCert badConstantInfo emptySession [] =
        some (false, emptySession, tr1) ∧
      tr1 = [] ++ [Event.LogPrint "zendoo_mc_cryptolib" (sizeMismatchFmt "constant")
        [.str "createParameters", .num 68, .num badConstantInfo.constant.length,
         .num sampleContext.engine.zendoo_get_field_size_in_bytes]] ∧
      (tr1.drop ([] : List Event).length).filter Event.isDeserialize = [] ∧
      allocated (tr1.drop ([] : List Event).length) = [] :=
  createParameters_constant_size_mismatch sampleContext sampleCert badConstantInfo
    emptySession [] (by decide) (by decide)

/-- Claim C5: when `createParameters` returns true, `bt_list` is the list of the outputs
flagged `isFromBackwardTransfer`, in output order, each mapped to the first 20 bytes of the
`pubKeyHash` and the `nValue` of its `CBackwardTransferOut`; its length is the number of
flagged outputs. -/
theorem createParameters_bt_list (ctx : Context) (scCert : CScCertificate)
    (scInfo : CSidechain) (s : Session) (tr : List Event) (s1 : Session) (tr1 : List Event)
    (hret : createParameters ctx scCert scInfo s tr = some (true, s1, tr1)) :
    s1.bt_list =
      (scCert.vout.filter (fun out => out.isFromBackwardTransfer)).map
        (fun out =>
          { pk_dest := (ctx.toBackwardTransferOut out).pubKeyHash.val.take 20
            amount := (ctx.toBackwardTransferOut out).nValue }) ∧
    s1.bt_list.length = scCert.vout.countP (fun out => out.isFromBackwardTransfer) := by
  have h := (createParameters_true _ _ _ _ _ _ _ hret).2.2.2.2.2
  rw [retrieveBtList_eq, List.nil_append] at h
  refine ⟨h, ?_⟩
  rw [h, List.length_map, List.countP_eq_length_filter]

/-- Witness of claim C5: three outputs, the first and the third flagged. -/
theorem createParameters_bt_list_witness :
    createParameters sampleContext sampleCert sampleInfo emptySession [] =
      some (true, preparedSession, preparedTrace) ∧
    (preparedSession.bt_list =
      (sampleCert.vout.filter (fun out => out.isFromBackwardTransfer)).map
        (fun out =>
          { pk_dest := (sampleContext.toBackwardTransferOut out).pubKeyHash.val.take 20
            amount := (sampleContext.toBackwardTransferOut out).nValue }) ∧
    preparedSession.bt_list.length =
      sampleCert.vout.countP (fun out => out.isFromBackwardTransfer)) :=
  ⟨by decide,
   createParameters_bt_list sampleContext sampleCert sampleInfo emptySession []
     preparedSession preparedTrace (by decide)⟩

/-- Claim C6: after one `freeParameters` the four handles and both block-hash references are
null; a second call passes only null pointers to the release functions, releases no
handle, and leaves the session as the first call left it. -/
theorem freeParameters_twice (s : Session) (tr : List Event) :
    (freeParameters s tr).1.constant = none ∧
    (freeParameters s tr).1.proofdata = none ∧
    (freeParameters s tr).1.sc_proof = none ∧
    (freeParameters s tr).1.sc_vk = none ∧
    (freeParameters s tr).1.end_epoch_mc_b_hash = none ∧
    (freeParameters s tr).1.prev_end_epoch_mc_b_hash = none ∧
    freeParameters (freeParameters s tr).1 (freeParameters s tr).2 =
      ((freeParameters s tr).1,
       (freeParameters s tr).2 ++
         [Event.zendoo_field_free none, Event.zendoo_field_free none,
          Event.zendoo_sc_proof_free none, Event.zendoo_sc_vk_free none,
          Event.zendoo_clear_error]) ∧
    released ((freeParameters (freeParameters s tr).1 (freeParameters s tr).2).2.drop
      (freeParameters s tr).2.length) = [] := by
  refine ⟨rfl, rfl, rfl, rfl, rfl, rfl, ?_, ?_⟩
  · simp [freeParameters]
  · simp [freeParameters, released, Event.releases]

/-- Claim C7, evaluated: `LoadScVkFromFile` on a path that names no file ends with the
exception thrown by `is.exceptions(...)`, and so does `SaveScVkToFile` on a path that
cannot be opened for writing; neither returns false.  The first holds for every file
system and path without a file. -/
theorem LoadScVkFromFile_missing_file_throws :
    emptyDisk.files "missing" = none ∧
    LoadScVkFromFile emptyDisk "missing" [] = (.threw, [], []) ∧
    readOnlyDisk.writable "vk" = false ∧
    (SaveScVkToFile readOnlyDisk "vk" [65]).1 = .threw ∧
    ∀ (fs : FileSystem) (vkPath : String) (scVk : ScVk), fs.files vkPath = none →
      LoadScVkFromFile fs vkPath scVk = (.threw, scVk, []) :=
  ⟨rfl, by decide, rfl, by decide, LoadScVkFromFile_missing⟩

/-- Claim C8: when `createParameters` returns true, `sc_proof` and `sc_vk` are non-null,
proofdata is null, quality is the certificate's quality, and `constant` is null exactly
when the sidechain's constant is empty; and when it returns false on an empty constant,
the cause is the proof size, a null `sc_proof` or a null `sc_vk`, never the constant. -/
theorem createParameters_postcondition (ctx : Context) (scCert : CScCertificate)
    (scInfo : CSidechain) (s : Session) (tr : List Event) (b : Bool) (s1 : Session)
    (tr1 : List Event)
    (hret : createParameters ctx scCert scInfo s tr = some (b, s1, tr1)) :
    (b = true →
      s1.sc_proof ≠ none ∧ s1.sc_vk ≠ none ∧ s1.proofdata = none ∧
      s1.quality = scCert.quality ∧ (s1.constant = none ↔ scInfo.constant = [])) ∧
    (b = false → scInfo.constant = [] →
      scCert.scProof.length ≠ ctx.engine.zendoo_get_sc_proof_size ∨
      ctx.engine.deserialize_sc_proof tr scCert.scProof = none ∨
      ctx.engine.deserialize_sc_vk_from_file
        (tr ++ [Event.deserialize_sc_proof scCert.scProof
          (ctx.engine.deserialize_sc_proof tr scCert.scProof)])
        scInfo.wCertVkPath scInfo.wCertVkPath.utf8ByteSize = none) := by
  constructor
  · intro hb
    subst hb
    obtain ⟨h1, h2, h3, h4, h5, -⟩ := createParameters_true _ _ _ _ _ _ _ hret
    exact ⟨h1, h2, h3, h4, h5⟩
  · intro hb hcon
    subst hb
    by_contra hcontra
    simp only [not_or] at hcontra
    obtain ⟨n1, n2, n3⟩ := hcontra
    unfold createParameters createParameters_proof createParameters_vk at hret
    simp only [hcon, List.length_nil, if_true] at hret
    rw [if_neg n1] at hret
    rw [if_neg n2, if_neg n3] at hret
    split at hret <;> simp at hret

/-- Witness of claim C8: a sidechain without constant, prepared successfully. -/
theorem createParameters_postcondition_witness :
    createParameters sampleContext sampleCert sampleInfo emptySession [] =
      some (true, preparedSession, preparedTrace) ∧
    sampleInfo.constant = [] ∧
    (preparedSession.sc_proof ≠ none ∧ preparedSession.sc_vk ≠ none ∧
      preparedSession.proofdata = none ∧ preparedSession.quality = sampleCert.quality ∧
      (preparedSession.constant = none ↔ sampleInfo.constant = [])) :=
  ⟨by decide, rfl,
   (createParameters_postcondition sampleContext sampleCert sampleInfo emptySession [] true
      preparedSession preparedTrace (by decide)).1 rfl⟩

/-- Claim C9: `verifierCall` returns the boolean `verify_sc_proof` returns on the session's
end-epoch hash, previous-end-epoch hash, `bt_list` and its length, quality, constant,
proofdata, `sc_proof` and `sc_vk`; the session is unchanged, and the call makes no
deserialize and no release call, whatever the last-error category is. -/
theorem verifierCall_spec (ctx : Context) (s : Session) (tr : List Event) :
    (verifierCall ctx s tr).1 =
      ctx.engine.verify_sc_proof tr
        { end_epoch_mc_b_hash := s.end_epoch_mc_b_hash
          prev_end_epoch_mc_b_hash := s.prev_end_epoch_mc_b_hash
          bt_list := s.bt_list
          bt_list_len := s.bt_list.length
          quality := s.quality
          constant := s.constant
          proofdata := s.proofdata
          sc_proof := s.sc_proof
          sc_vk := s.sc_vk } ∧
    (verifierCall ctx s tr).2.1 = s ∧
    tr <+: (verifierCall ctx s tr).2.2 ∧
    ((verifierCall ctx s tr).2.2.drop tr.length).filter
      (fun e => e.isDeserialize || e.isRelease) = [] := by
  unfold verifierCall
  simp only [Session.verifyArgs]
  split
  · split <;> simp_all [Event.isDeserialize, Event.isRelease]
  · simp_all [Event.isDeserialize, Event.isRelease]

/-- Claim C10, evaluated: for a one-byte constant against a field-element size of 2 the
log line reads "expected vector of size: 1, found vector of size 2", and for a two-byte
proof against a proof size of 3 it reads "expected vector of size: 2, found vector of
size 3": the supplied length is printed as the expected size and the mandated size as the
found one. -/
theorem size_mismatch_log_swaps_sizes :
    badConstantInfo.constant.length = 1 ∧
    sampleContext.engine.zendoo_get_field_size_in_bytes = 2 ∧
    createParameters sampleContext sampleCert badConstantInfo emptySession [] =
      some (false, emptySession,
        [Event.LogPrint "zendoo_mc_cryptolib"
          "%s():%d - failed to deserialize \"constant\": expected vector of size: %d, found vector of size %d instead \n"
          [.str "createParameters", .num 68, .num 1, .num 2]]) ∧
    format
      "%s():%d - failed to deserialize \"constant\": expected vector of size: %d, found vector of size %d instead \n"
      [.str "createParameters", .num 68, .num 1, .num 2] =
      "createParameters():68 - failed to deserialize \"constant\": expected vector of size: 1, found vector of size 2 instead \n" ∧
    shortProofCert.scProof.length = 2 ∧
    sampleContext.engine.zendoo_get_sc_proof_size = 3 ∧
    createParameters sampleContext shortProofCert sampleInfo emptySession [] =
      some (false, { emptySession with quality := 5 },
        [Event.LogPrint "zendoo_mc_cryptolib"
          "%s():%d - failed to deserialize \"sc_proof\": expected vector of size: %d, found vector of size %d instead \n"
          [.str "createParameters", .num 95, .num 2, .num 3]]) ∧
    format
      "%s():%d - failed to deserialize \"sc_proof\": expected vector of size: %d, found vector of size %d instead \n"
      [.str "createParameters", .num 95, .num 2, .num 3] =
      "createParameters():95 - failed to deserialize \"sc_proof\": expected vector of size: 2, found vector of size 3 instead \n" := by
  refine ⟨rfl, rfl, by decide, by decide, rfl, rfl, by decide, by decide⟩

end libzendoomc
